import Mathlib

/-!
Verification of the seat-reservation core of the repository
(app.py + s3_store.py, S3 backend).

The embedding models the sequential semantics of the HTTP operations
`reserve` (book), `cancel`, `update_reservation_details` (update) and
`admin_resync` (resync) of app.py, together with the store helpers of
s3_store.py they call.  Storage state (the tables.json inventory
document, the reservations/ folder and the idempotency/ folder) is a
`SysState`.  Fallible storage writes are modelled by explicit Boolean
flags on each operation: a flag set to `false` means the corresponding
S3 call raised a `ClientError` (the source catches the error, logs it
and continues on its failure path).  CAS version conflicts cannot occur
in a sequential execution, so the CAS retry loops of s3_store.py always
terminate on their first attempt here.  uuid4 reservation-id generation
is modelled by a fresh-id counter.  Timestamps are not modelled: no
claim mentions them.
-/

/-- ASCII lower-casing of one character, as Python str.lower acts on
ASCII letters (the only letters the spec and claims mention). -/
def pyLowerChar (c : Char) : Char :=
  if 'A' ≤ c ∧ c ≤ 'Z' then Char.ofNat (c.toNat + 32) else c

/-- ASCII lower-casing of a string (model of Python str.lower). -/
def pyLower (s : String) : String := ⟨s.data.map pyLowerChar⟩

/-- Whitespace characters removed by Python str.strip. -/
def isPySpace (c : Char) : Bool :=
  c = ' ' ∨ c = '\t' ∨ c = '\n' ∨ c = '\r'

/-- Model of Python str.strip: drop leading and trailing whitespace. -/
def pyStrip (s : String) : String :=
  ⟨((s.data.dropWhile isPySpace).reverse.dropWhile isPySpace).reverse⟩

/-- Normalisation of employee_name in app.py reserve:
str(payload.get("employee_name", "")).strip() or "Guest". -/
def normName (raw : String) : String :=
  if pyStrip raw = "" then "Guest" else pyStrip raw

/-- Normalisation of login_id in app.py reserve:
(str(payload.get("login_id", "")).strip() or "guest").lower(). -/
def normLogin (raw : String) : String :=
  pyLower (if pyStrip raw = "" then "guest" else pyStrip raw)

/-- One entry of the tables.json inventory document:
table["id"], table["name"], table["total"], table["seats_left"]. -/
structure Table where
  id : Int
  name : String
  total : Int
  seats_left : Int
deriving DecidableEq, Repr

/-- One reservation record (a reservations/DATE/ID.json object).
The uuid id is modelled as a Nat drawn from a fresh counter. -/
structure Reservation where
  rid : Nat
  table_id : Int
  seats_taken : Int
  employee_name : String
  login_id : String
deriving DecidableEq, Repr

/-- The persisted storage state: the tables.json document (an
association list keyed by the integer table id, mirroring the JSON
dict keyed by str(id)), the reservation records, the idempotency
ledger (key to reservation id) and the uuid freshness counter. -/
structure SysState where
  tables : List (Int × Table)
  reservations : List Reservation
  ledger : List (String × Nat)
  nextId : Nat
deriving DecidableEq, Repr

/-- Lookup of a table by key in the tables.json dict. -/
def lookupTable (k : Int) : List (Int × Table) → Option Table
  | [] => none
  | e :: rest => if e.1 = k then some e.2 else lookupTable k rest

/-- Pointwise update of the entry with key k in the tables.json dict
(the Python code mutates tables_data[key] in place). -/
def updateTable (k : Int) (f : Table → Table) :
    List (Int × Table) → List (Int × Table)
  | [] => []
  | e :: rest =>
      (if e.1 = k then (e.1, f e.2) else e) :: updateTable k f rest

/-- Model of S3Store.get_idempotency_key: read idempotency/KEY.json,
returning None when the object does not exist. -/
def get_idempotency_key (k : String) : List (String × Nat) → Option Nat
  | [] => none
  | e :: rest => if e.1 = k then some e.2 else get_idempotency_key k rest

/-- Model of S3Store.get_all_reservations: enumerate every reservation
object under reservations/.  On a ClientError the source logs the
failure and returns the empty list; listOk = false is that error path. -/
def get_all_reservations (listOk : Bool) (recs : List Reservation) :
    List Reservation :=
  if listOk then recs else []

/-- Model of S3Store.check_login_id_exists: lower-case the target and
compare it against the lower-cased login_id of every enumerated
reservation. -/
def check_login_id_exists (listOk : Bool) (recs : List Reservation)
    (login_id : String) : Bool :=
  (get_all_reservations listOk recs).any
    (fun r => pyLower r.login_id = pyLower login_id)

/-- Model of S3Store.reserve_seats_cas in a sequential execution: read
tables.json; fail (False, i.e. none) when the table is absent or
seats_left < seats_count; otherwise decrement and write back.  The CAS
precondition cannot fail sequentially. -/
def reserve_seats_cas (table_id : Int) (seats_count : Int)
    (tables : List (Int × Table)) : Option (List (Int × Table)) :=
  match lookupTable table_id tables with
  | none => none
  | some t =>
      if t.seats_left < seats_count then none
      else some (updateTable table_id
        (fun tb => { tb with seats_left := tb.seats_left - seats_count })
        tables)

/-- Model of S3Store.release_seats_cas in a sequential execution: read
tables.json; fail when the table is absent; otherwise increment,
clamped at total (new_left = min(curr_left + add, total)), and write
back. -/
def release_seats_cas (table_id : Int) (seats_count : Int)
    (tables : List (Int × Table)) : Option (List (Int × Table)) :=
  match lookupTable table_id tables with
  | none => none
  | some _ =>
      some (updateTable table_id
        (fun tb =>
          { tb with seats_left := min (tb.seats_left + seats_count) tb.total })
        tables)

/-- Store-access events emitted by the booking endpoint, used to state
the ordering properties of the protocol. -/
inductive Event
  | ledgerRead
  | listRead
  | tablesRead
  | invWrite
  | recordWriteOk
  | recordWriteFail
  | ledgerWrite
deriving DecidableEq, Repr

/-- The raw seats_to_take value of a booking payload: either a value
int() coerces to an integer n, or a value on which int() raises. -/
inductive RawSeats
  | rInt (n : Int)
  | rMalformed
deriving DecidableEq, Repr

/-- Seat coercion in app.py reserve: seats = payload.get
("seats_to_take", 1); try seats = int(seats) except: seats = 1. -/
def coerceSeats : RawSeats → Int
  | .rInt n => n
  | .rMalformed => 1

/-- Seat coercion in app.py update_reservation_details: new_seats =
int(payload.get("seats_taken")); a ValueError or TypeError is a 400. -/
def coerceSeatsStrict : RawSeats → Option Int
  | .rInt n => some n
  | .rMalformed => none

/-- MAX_PER_BOOKING of app.py. -/
def MAX_PER_BOOKING : Int := 3

/-- Arguments of one booking request (app.py reserve).  table_id is
the already int-coerced payload value; a payload whose table_id fails
int() is rejected 400 before anything else and is not modelled. -/
structure BookArgs where
  tableId : Int
  seatsRaw : RawSeats
  rawName : String
  rawLogin : String
  idemKey : String
deriving DecidableEq, Repr

/-- Storage-failure nondeterminism of one booking request: listOk is
the reservation enumeration behind check_login_id_exists, recordOk the
save_reservation put, idemOk the save_idempotency_key put (its result
is discarded by the source), rollbackOk the compensating
release_seats_cas of the rollback path. -/
structure BookFlags where
  listOk : Bool
  recordOk : Bool
  idemOk : Bool
  rollbackOk : Bool
deriving DecidableEq, Repr

/-- Outcome of one booking request, mirroring the HTTP responses of
app.py reserve. -/
inductive BookResult
  | badRequest
  | replayed (rid : Nat)
  | duplicateLogin
  | serverError
  | tableNotFound
  | insufficient
  | created (rid : Nat)
  | saveFailed
deriving DecidableEq, Repr

/-- The reservation record created by a successful booking in app.py
reserve: a fresh uuid, the requested table, the coerced seat count and
the normalised names. -/
def bookedRecord (a : BookArgs) (s : SysState) : Reservation :=
  { rid := s.nextId, table_id := a.tableId,
    seats_taken := coerceSeats a.seatsRaw,
    employee_name := normName a.rawName,
    login_id := normLogin a.rawLogin }

/-- Model of app.py reserve (the book operation), in source order:
validate the seat count (400); consult the idempotency ledger and
replay on a hit (200); duplicate-login check (409); read tables.json
(500 when absent or empty); table existence (404); seat availability
(409); CAS decrement; write the reservation record, and on success
write the idempotency entry (201); on record-write failure compensate
with release_seats_cas (500).  The third component is the trace of
store accesses performed. -/
def reserve (a : BookArgs) (fl : BookFlags) (s : SysState) :
    BookResult × SysState × List Event :=
  let seats := coerceSeats a.seatsRaw
  let employee_name := normName a.rawName
  let login_id := normLogin a.rawLogin
  if seats < 1 ∨ MAX_PER_BOOKING < seats then (.badRequest, s, [])
  else
    match get_idempotency_key a.idemKey s.ledger with
    | some rid => (.replayed rid, s, [.ledgerRead])
    | none =>
      if check_login_id_exists fl.listOk s.reservations login_id then
        (.duplicateLogin, s, [.ledgerRead, .listRead])
      else if s.tables = [] then
        (.serverError, s, [.ledgerRead, .listRead, .tablesRead])
      else
        match lookupTable a.tableId s.tables with
        | none => (.tableNotFound, s, [.ledgerRead, .listRead, .tablesRead])
        | some t =>
          if t.seats_left < seats then
            (.insufficient, s, [.ledgerRead, .listRead, .tablesRead])
          else
            let tables1 := updateTable a.tableId
              (fun tb => { tb with seats_left := tb.seats_left - seats })
              s.tables
            if fl.recordOk then
              (.created s.nextId,
               { tables := tables1,
                 reservations := s.reservations ++ [bookedRecord a s],
                 ledger := if fl.idemOk then (a.idemKey, s.nextId) :: s.ledger
                           else s.ledger,
                 nextId := s.nextId + 1 },
               [.ledgerRead, .listRead, .tablesRead, .invWrite,
                .recordWriteOk] ++
                 (if fl.idemOk then [.ledgerWrite] else []))
            else
              let rb := if fl.rollbackOk then
                          release_seats_cas a.tableId seats tables1
                        else none
              (.saveFailed,
               { s with tables := rb.getD tables1, nextId := s.nextId + 1 },
               [.ledgerRead, .listRead, .tablesRead, .invWrite,
                .recordWriteFail] ++
                 (if rb.isSome then [.invWrite] else []))

/-- First reservation record with the given id, as the generator
expression in app.py _find_reservation_and_date selects it. -/
def findRes (rid : Nat) : List Reservation → Option Reservation
  | [] => none
  | r :: rest => if r.rid = rid then some r else findRes rid rest

/-- Deletion of the single reservations/DATE/ID.json object
(delete_object removes one key). -/
def eraseRes (rid : Nat) : List Reservation → List Reservation
  | [] => []
  | r :: rest => if r.rid = rid then rest else r :: eraseRes rid rest

/-- Storage-failure nondeterminism of one cancel request: deleteOk is
the delete_object call, releaseOk the following release_seats_cas. -/
structure CancelFlags where
  deleteOk : Bool
  releaseOk : Bool
deriving DecidableEq, Repr

/-- Outcome of one cancel request.  The source reports success even
when the seat release fails, with a distinct warning message
(okReleaseFailed). -/
inductive CancelResult
  | notFound
  | deleteFailed
  | ok
  | okReleaseFailed
deriving DecidableEq, Repr

/-- Model of app.py cancel: resolve the record (404 when absent),
delete it (500 on failure), then release its seats with
release_seats_cas; a failed release is still reported as success with
a resync warning. -/
def cancel (rid : Nat) (fl : CancelFlags) (s : SysState) :
    CancelResult × SysState :=
  match findRes rid s.reservations with
  | none => (.notFound, s)
  | some r =>
    if fl.deleteOk then
      let s1 : SysState := { s with reservations := eraseRes rid s.reservations }
      if fl.releaseOk then
        match release_seats_cas r.table_id r.seats_taken s1.tables with
        | some tbls => (.ok, { s1 with tables := tbls })
        | none => (.okReleaseFailed, s1)
      else (.okReleaseFailed, s1)
    else (.deleteFailed, s)

/-- Arguments of one update_reservation_details request. -/
structure UpdateArgs where
  rid : Nat
  rawLogin : String
  rawName : String
  seatsRaw : RawSeats
deriving DecidableEq, Repr

/-- Storage-failure nondeterminism of one update request: seatCasOk is
the step-2 seat adjustment call, listOk the enumeration behind the
new-login uniqueness check, updOk the record save, compOk the
compensating seat adjustment of the rollback paths. -/
structure UpdateFlags where
  seatCasOk : Bool
  listOk : Bool
  updOk : Bool
  compOk : Bool
deriving DecidableEq, Repr

/-- Outcome of one update request. -/
inductive UpdateResult
  | badRequest
  | notFound
  | seatConflict
  | duplicateLogin
  | ok
  | saveFailed
deriving DecidableEq, Repr

/-- Compensation of the seat delta in app.py update_reservation_details
rollback paths: release the extra seats when the delta was positive,
re-reserve them when it was negative; the result of the compensating
call is discarded. -/
def compensateSeats (table_id : Int) (diff : Int) (compOk : Bool)
    (tables : List (Int × Table)) : List (Int × Table) :=
  if 0 < diff then
    (if compOk then release_seats_cas table_id diff tables else none).getD tables
  else if diff < 0 then
    (if compOk then reserve_seats_cas table_id (-diff) tables else none).getD tables
  else tables

/-- Tail of app.py update_reservation_details after the step-2 seat
adjustment: new-login uniqueness check with compensation on conflict
(409), record save (rolled back to saveFailed on failure), success. -/
def updFinish (a : UpdateArgs) (fl : UpdateFlags) (s : SysState)
    (r : Reservation) (newLogin newName : String) (newSeats diff : Int)
    (tables1 : List (Int × Table)) : UpdateResult × SysState :=
  if r.login_id ≠ newLogin ∧
      check_login_id_exists fl.listOk s.reservations newLogin then
    (.duplicateLogin,
     { s with tables := compensateSeats r.table_id diff fl.compOk tables1 })
  else if fl.updOk then
    (.ok,
     { s with
         tables := tables1
         reservations := s.reservations.map (fun x =>
           if x.rid = a.rid then
             { x with
                 login_id := newLogin
                 employee_name := newName
                 seats_taken := newSeats }
           else x) })
  else
    (.saveFailed,
     { s with tables := compensateSeats r.table_id diff fl.compOk tables1 })

/-- Model of app.py update_reservation_details: strict seat coercion
(400), required-field and range validation (400), record resolution
(404), seat-delta adjustment via reserve_seats_cas (409 on failure) or
release_seats_cas (failure ignored), then updFinish. -/
def update_reservation_details (a : UpdateArgs) (fl : UpdateFlags)
    (s : SysState) : UpdateResult × SysState :=
  match coerceSeatsStrict a.seatsRaw with
  | none => (.badRequest, s)
  | some newSeats =>
    if a.rawLogin = "" ∨ a.rawName = "" then (.badRequest, s)
    else if newSeats < 1 ∨ MAX_PER_BOOKING < newSeats then (.badRequest, s)
    else
      let newLogin := pyLower (pyStrip a.rawLogin)
      let newName := pyStrip a.rawName
      if newLogin = "" ∨ newName = "" then (.badRequest, s)
      else
        match findRes a.rid s.reservations with
        | none => (.notFound, s)
        | some r =>
          let diff := newSeats - r.seats_taken
          if 0 < diff then
            match (if fl.seatCasOk then
                     reserve_seats_cas r.table_id diff s.tables
                   else none) with
            | none => (.seatConflict, s)
            | some tables1 =>
                updFinish a fl s r newLogin newName newSeats diff tables1
          else if diff < 0 then
            updFinish a fl s r newLogin newName newSeats diff
              ((if fl.seatCasOk then
                  release_seats_cas r.table_id (-diff) s.tables
                else none).getD s.tables)
          else
            updFinish a fl s r newLogin newName newSeats diff s.tables

/-- Seats actually taken on one table: the per-table accumulation of
seats_taken that admin_resync computes from the full reservation set. -/
def sumSeats (table_id : Int) : List Reservation → Int
  | [] => 0
  | r :: rest =>
      (if r.table_id = table_id then r.seats_taken else 0) + sumSeats table_id rest

/-- Model of app.py admin_resync: recompute the true seats taken per
table from the reservation set and, for every table whose seats_left
differs from total minus that count, overwrite seats_left with it;
the corrected snapshot is written back with one CAS put (which cannot
conflict sequentially). -/
def admin_resync (s : SysState) : SysState :=
  { s with tables := s.tables.map (fun kt =>
      let newLeft := kt.2.total - sumSeats kt.1 s.reservations
      if kt.2.seats_left = newLeft then kt
      else (kt.1, { kt.2 with seats_left := newLeft })) }

/-- One operation of the external interface, with its storage-failure
flags. -/
inductive Op
  | opBook (a : BookArgs) (fl : BookFlags)
  | opCancel (rid : Nat) (fl : CancelFlags)
  | opUpdate (a : UpdateArgs) (fl : UpdateFlags)
  | opResync
deriving Repr

/-- State transition of one operation (the response is discarded). -/
def applyOp (s : SysState) : Op → SysState
  | .opBook a fl => (reserve a fl s).2.1
  | .opCancel rid fl => (cancel rid fl s).2
  | .opUpdate a fl => (update_reservation_details a fl s).2
  | .opResync => admin_resync s

/-- State after a sequence of operations. -/
def runOps (s : SysState) (ops : List Op) : SysState := ops.foldl applyOp s

/-- Model of app.py init_tables: tables 1..108, each named
"Table i", with total = 10 and seats_left = 10; no reservations, no
idempotency entries. -/
def init_tables : SysState :=
  { tables := (List.range 108).map (fun i =>
      (((i : Int) + 1),
       { id := (i : Int) + 1, name := "Table " ++ toString (i + 1),
         total := 10, seats_left := 10 })),
    reservations := [], ledger := [], nextId := 0 }

/-- Auxiliary scan for the trace-ordering property: walking the trace,
an occurrence of b before any occurrence of a refutes the property. -/
def precededByAux (a b : Event) : Bool → List Event → Bool
  | _, [] => true
  | seen, e :: rest =>
      if e = b ∧ seen = false then false
      else precededByAux a b (seen || decide (e = a)) rest

/-- Every occurrence of b in the trace is strictly preceded by an
occurrence of a. -/
def precededBy (a b : Event) (tr : List Event) : Bool :=
  precededByAux a b false tr

/-- All storage writes succeed during a booking. -/
def bkOk : BookFlags := ⟨true, true, true, true⟩

/-- Operation sequence exhibiting the seats_left invariant violation:
two 3-seat bookings, an update of the second reservation down to 1
seat whose record write and seat compensation both fail (leaving
seats_left inflated by 2), two further 3-seat bookings that the
inflated counter allows, and a resync. -/
def c1_trace : List Op :=
  [ .opBook ⟨1, .rInt 3, "Alice", "alice", "k1"⟩ bkOk,
    .opBook ⟨1, .rInt 3, "Bob", "bob", "k2"⟩ bkOk,
    .opUpdate ⟨1, "bob", "Bob", .rInt 1⟩ ⟨true, true, false, false⟩,
    .opBook ⟨1, .rInt 3, "Carol", "carol", "k3"⟩ bkOk,
    .opBook ⟨1, .rInt 3, "Dave", "dave", "k4"⟩ bkOk,
    .opResync ]

/-- Booking payload used twice with the same idempotency key. -/
def c2_args : BookArgs := ⟨1, .rInt 2, "Alice", "alice", "K"⟩

/-- Flags of a booking whose idempotency-ledger write fails (the
source discards the result of save_idempotency_key). -/
def c2_flagsNoLedger : BookFlags := ⟨true, true, false, true⟩

/-- State after the first booking with key K whose ledger write
failed. -/
def c2_state1 : SysState := (reserve c2_args c2_flagsNoLedger init_tables).2.1

/-- State with 7 seats left on table 1 (after one 3-seat booking). -/
def c3_state : SysState :=
  runOps init_tables [.opBook ⟨1, .rInt 3, "Alice", "alice", "k1"⟩ bkOk]

/-- A request for 8 seats: more than the 7 left on table 1. -/
def c3_args : BookArgs := ⟨1, .rInt 8, "Bob", "bob", "k2"⟩

/-- State holding a reservation with login_id alice. -/
def c4_state1 : SysState :=
  runOps init_tables [.opBook ⟨1, .rInt 1, "Alice", "alice", "kA"⟩ bkOk]

/-- Second booking for the same login up to case, fresh key. -/
def c4_args2 : BookArgs := ⟨1, .rInt 1, "Alice Again", "ALICE", "kB"⟩

/-- Flags of a booking whose duplicate-check enumeration errors. -/
def c4_flagsListErr : BookFlags := ⟨false, true, true, true⟩

/-- Booking payload whose seats_to_take is a value int() raises on. -/
def c8_args : BookArgs := ⟨1, .rMalformed, "Mallory", "mallory", "kM"⟩

/-- Small storage state used to instantiate the general theorems:
three tables (10, 7 and 2 seats left), one reservation of 3 seats on
table 2 by login ann, one spent idempotency key, next fresh id 1. -/
def w0 : SysState :=
  ⟨[(1, ⟨1, "Table 1", 10, 10⟩), (2, ⟨2, "Table 2", 10, 7⟩),
    (3, ⟨3, "Table 3", 10, 2⟩)],
   [⟨0, 2, 3, "Ann", "ann"⟩], [("old", 0)], 1⟩

/-- First booking of the idempotent-replay instance. -/
def w2_a1 : BookArgs := ⟨1, .rInt 1, "Wendy", "wendy", "K2"⟩

/-- Replay call of the idempotent-replay instance: same key K2. -/
def w2_a2 : BookArgs := ⟨1, .rInt 2, "Wendy", "wendy", "K2"⟩

/-- State after the first booking of the idempotent-replay instance. -/
def w2_s1 : SysState := (reserve w2_a1 bkOk w0).2.1

/-- Trace of the first booking of the idempotent-replay instance. -/
def w2_tr : List Event := (reserve w2_a1 bkOk w0).2.2

/-- A 3-seat request against table 3, which has only 2 seats left. -/
def w3_args : BookArgs := ⟨3, .rInt 3, "Bob", "bob", "nk"⟩

/-- First booking of the duplicate-login instance. -/
def w4_a1 : BookArgs := ⟨1, .rInt 1, "Zed", "zed", "kz"⟩

/-- Second booking of the duplicate-login instance: same login up to
case, fresh key. -/
def w4_a2 : BookArgs := ⟨1, .rInt 1, "Zed Again", "ZED", "kz2"⟩

/-- State after the first booking of the duplicate-login instance. -/
def w4_s1 : SysState := (reserve w4_a1 bkOk w0).2.1

/-- Trace of the first booking of the duplicate-login instance. -/
def w4_tr : List Event := (reserve w4_a1 bkOk w0).2.2

/-- Operations intervening between the two calls of the
duplicate-login instance: an unrelated booking by a third login. -/
def w4_ops : List Op := [.opBook ⟨3, .rInt 1, "Bea", "bea", "kb"⟩ bkOk]

/-- Booking of the round-trip instance: 2 seats on table 1. -/
def w6_a : BookArgs := ⟨1, .rInt 2, "Pam", "pam", "kp"⟩

/-- State after the booking of the round-trip instance. -/
def w6_s1 : SysState := (reserve w6_a bkOk w0).2.1

/-- Trace of the booking of the round-trip instance. -/
def w6_tr : List Event := (reserve w6_a bkOk w0).2.2

/-- A booking request for 9 seats (an out-of-range integer). -/
def w8_args : BookArgs := ⟨1, .rInt 9, "Xavier", "xavier", "kx"⟩

/-- Booking of the frame instance: 1 seat on table 2. -/
def w9_a : BookArgs := ⟨2, .rInt 1, "Quin", "quin", "kq"⟩

/-- State after the booking of the frame instance. -/
def w9_s1 : SysState := (reserve w9_a bkOk w0).2.1

/-- Trace of the booking of the frame instance. -/
def w9_tr : List Event := (reserve w9_a bkOk w0).2.2

/-- A booking whose login duplicates ann up to case, issued while the
duplicate-check enumeration errors. -/
def w10_a : BookArgs := ⟨1, .rInt 3, "Ann Again", "ANN", "ka"⟩


/-! ## Helper lemmas -/

theorem lookupTable_nil (k : Int) : lookupTable k [] = none := rfl

theorem lookupTable_updateTable_self (k : Int) (f : Table → Table) :
    ∀ l : List (Int × Table),
      lookupTable k (updateTable k f l) = (lookupTable k l).map f := by
  intro l
  induction l with
  | nil => rfl
  | cons e rest ih =>
      by_cases he : e.1 = k
      · simp [updateTable, lookupTable, he]
      · simp [updateTable, lookupTable, he, ih]

theorem lookupTable_updateTable_ne (k k2 : Int) (f : Table → Table)
    (hne : k ≠ k2) :
    ∀ l : List (Int × Table),
      lookupTable k (updateTable k2 f l) = lookupTable k l := by
  intro l
  induction l with
  | nil => rfl
  | cons e rest ih =>
      by_cases he : e.1 = k2
      · have h1 : ¬ e.1 = k := fun hk => hne (by rw [← hk, he])
        simp [updateTable, lookupTable, he, h1, Ne.symm hne, ih]
      · by_cases hk : e.1 = k
        · simp [updateTable, lookupTable, he, hk, hne]
        · simp [updateTable, lookupTable, he, hk, ih]

theorem reserve_created_inv (a : BookArgs) (fl : BookFlags) (s : SysState)
    (rid : Nat) (s1 : SysState) (tr : List Event)
    (h : reserve a fl s = (.created rid, s1, tr)) :
    rid = s.nextId ∧ fl.recordOk = true ∧
    (1 ≤ coerceSeats a.seatsRaw ∧ coerceSeats a.seatsRaw ≤ MAX_PER_BOOKING) ∧
    get_idempotency_key a.idemKey s.ledger = none ∧
    check_login_id_exists fl.listOk s.reservations (normLogin a.rawLogin) = false ∧
    ∃ t, lookupTable a.tableId s.tables = some t ∧
      coerceSeats a.seatsRaw ≤ t.seats_left ∧
      s1 = { tables := updateTable a.tableId
               (fun tb => { tb with seats_left := tb.seats_left - coerceSeats a.seatsRaw })
               s.tables,
             reservations := s.reservations ++ [bookedRecord a s],
             ledger := if fl.idemOk then (a.idemKey, s.nextId) :: s.ledger
                       else s.ledger,
             nextId := s.nextId + 1 } := by
  simp only [reserve] at h
  by_cases hval : coerceSeats a.seatsRaw < 1 ∨ MAX_PER_BOOKING < coerceSeats a.seatsRaw
  · simp [hval] at h
  rcases hkey : get_idempotency_key a.idemKey s.ledger with _ | r0
  rotate_left
  · simp [hval, hkey] at h
  rcases hlogin : check_login_id_exists fl.listOk s.reservations (normLogin a.rawLogin)
  rotate_left
  · simp [hval, hkey, hlogin] at h
  by_cases htab : s.tables = []
  · simp [hval, hkey, hlogin, htab] at h
  rcases hlook : lookupTable a.tableId s.tables with _ | t
  · simp [hval, hkey, hlogin, htab, hlook] at h
  by_cases hsl : t.seats_left < coerceSeats a.seatsRaw
  · simp [hval, hkey, hlogin, htab, hlook, hsl] at h
  rcases hrec : fl.recordOk
  · simp [hval, hkey, hlogin, htab, hlook, hsl, hrec] at h
  simp only [hval, hkey, hlogin, htab, hlook, hsl, hrec, if_neg, if_true,
    Bool.false_eq_true, if_false, Prod.mk.injEq, BookResult.created.injEq] at h
  obtain ⟨h1, h2, h3⟩ := h
  simp only [MAX_PER_BOOKING, not_or, not_lt] at hval ⊢
  exact ⟨h1.symm, trivial, ⟨hval.1, hval.2⟩, trivial, trivial, t, rfl, not_lt.mp hsl, h2.symm⟩

theorem get_idempotency_key_cons_ne (k k2 : String) (v : Nat)
    (l : List (String × Nat)) (hne : ¬ k2 = k) :
    get_idempotency_key k ((k2, v) :: l) = get_idempotency_key k l := by
  simp [get_idempotency_key, hne]

theorem cancel_ledger (rid : Nat) (fl : CancelFlags) (s : SysState) :
    (cancel rid fl s).2.ledger = s.ledger := by
  simp only [cancel]
  repeat' split
  all_goals rfl

theorem updFinish_ledger (a : UpdateArgs) (fl : UpdateFlags) (s : SysState)
    (r : Reservation) (newLogin newName : String) (newSeats diff : Int)
    (tables1 : List (Int × Table)) :
    (updFinish a fl s r newLogin newName newSeats diff tables1).2.ledger = s.ledger := by
  unfold updFinish
  repeat' split
  all_goals rfl

theorem update_ledger (a : UpdateArgs) (fl : UpdateFlags) (s : SysState) :
    (update_reservation_details a fl s).2.ledger = s.ledger := by
  simp only [update_reservation_details]
  repeat' split
  all_goals first | rfl | apply updFinish_ledger

theorem ledger_applyOp_stable (k : String) (v : Nat) (s : SysState) (op : Op)
    (h : get_idempotency_key k s.ledger = some v) :
    get_idempotency_key k (applyOp s op).ledger = some v := by
  cases op with
  | opBook a fl =>
      show get_idempotency_key k (reserve a fl s).2.1.ledger = some v
      simp only [reserve]
      by_cases hval : coerceSeats a.seatsRaw < 1 ∨ MAX_PER_BOOKING < coerceSeats a.seatsRaw
      · simp [hval, h]
      rcases hkey : get_idempotency_key a.idemKey s.ledger with _ | r0
      rotate_left
      · simp [hval, hkey, h]
      rcases hlogin : check_login_id_exists fl.listOk s.reservations (normLogin a.rawLogin)
      rotate_left
      · simp [hval, hkey, hlogin, h]
      by_cases htab : s.tables = []
      · simp [hval, hkey, hlogin, htab, h]
      rcases hlook : lookupTable a.tableId s.tables with _ | t
      · simp [hval, hkey, hlogin, htab, hlook, h]
      by_cases hsl : t.seats_left < coerceSeats a.seatsRaw
      · simp [hval, hkey, hlogin, htab, hlook, hsl, h]
      rcases hrec : fl.recordOk
      · simp [hval, hkey, hlogin, htab, hlook, hsl, hrec, h]
      have hne : ¬ a.idemKey = k := by
        intro he; rw [he, h] at hkey; exact Option.noConfusion hkey
      rcases hidem : fl.idemOk
      · simp [hval, hkey, hlogin, htab, hlook, hsl, hrec, hidem, h]
      · simp [hval, hkey, hlogin, htab, hlook, hsl, hrec, hidem,
          get_idempotency_key_cons_ne k a.idemKey s.nextId s.ledger hne, h]
  | opCancel rid fl =>
      show get_idempotency_key k (cancel rid fl s).2.ledger = some v
      rw [cancel_ledger]
      exact h
  | opUpdate a fl =>
      show get_idempotency_key k (update_reservation_details a fl s).2.ledger = some v
      rw [update_ledger]
      exact h
  | opResync =>
      show get_idempotency_key k (admin_resync s).ledger = some v
      exact h

theorem ledger_runOps_stable (k : String) (v : Nat) :
    ∀ (ops : List Op) (s : SysState),
      get_idempotency_key k s.ledger = some v →
      get_idempotency_key k (runOps s ops).ledger = some v := by
  intro ops
  induction ops with
  | nil => intro s h; exact h
  | cons op rest ih =>
      intro s h
      exact ih (applyOp s op) (ledger_applyOp_stable k v s op h)

/-- C7: in every execution of book, every inventory write in the
store-access trace is strictly preceded by the idempotency-ledger
read, and a ledger write occurs only strictly after a successful
reservation-record write. -/
theorem c7_ledger_ordering (a : BookArgs) (fl : BookFlags) (s : SysState) :
    precededBy .ledgerRead .invWrite (reserve a fl s).2.2 = true ∧
    precededBy .recordWriteOk .ledgerWrite (reserve a fl s).2.2 = true := by
  simp only [reserve]
  constructor <;>
  · repeat' split
    all_goals rfl

/-- C5: after admin_resync, every table in the written snapshot has
seats_left equal to total minus the sum of seats_taken over the
reservation records referencing that table. -/
theorem c5_resync_restores_consistency (s : SysState) (k : Int) (t : Table)
    (hmem : (k, t) ∈ (admin_resync s).tables) :
    t.seats_left = t.total - sumSeats k (admin_resync s).reservations := by
  have hres : (admin_resync s).reservations = s.reservations := rfl
  rw [hres]
  simp only [admin_resync, List.mem_map] at hmem
  obtain ⟨kt, hkt, heq⟩ := hmem
  by_cases hc : kt.2.seats_left = kt.2.total - sumSeats kt.1 s.reservations
  · rw [if_pos hc] at heq
    subst heq
    exact hc
  · rw [if_neg hc] at heq
    simp only [Prod.mk.injEq] at heq
    obtain ⟨h1, h2⟩ := heq
    rw [← h1, ← h2]


/-- C1: the claim asserts 0 <= seats_left <= total in every state
reachable by book, cancel, update-reservation and resync operations.
The code violates the lower bound: after the operation sequence
c1_trace (in which one update suffers a record-write failure together
with a compensation failure, both real failure paths of
app.py update_reservation_details), the reservations on table 1 sum to
12 seats while total is 10, and admin_resync then writes
seats_left = 10 - 12 = -2 with no lower clamp.  This theorem evaluates
the model at that failing input. -/
theorem c1_seats_left_invariant_violated_by_resync :
    (lookupTable 1 (runOps init_tables c1_trace).tables).map Table.seats_left
      = some (-2) := by
  decide

/-- C2 counterexample: a book call with key K succeeds (HTTP 201) even
though its idempotency-ledger write failed, because app.py discards the
result of save_idempotency_key; a later book call with the same key K
is then not recognised as a replay and returns duplicateLogin instead
of the first reservation id. -/
theorem c2_replay_not_recognized_after_ledger_write_failure :
    (reserve c2_args c2_flagsNoLedger init_tables).1 = .created 0 ∧
    (reserve c2_args bkOk c2_state1).1 = .duplicateLogin := by
  decide

/-- C3 counterexample: a book request for 8 seats against a table with
7 seats left (fresh key, non-duplicate login) is rejected as
badRequest (400, invalid seat count) by the validation that precedes
every store access, not as insufficient (InsufficientSeats). -/
theorem c3_overlimit_request_rejected_as_bad_request :
    (lookupTable 1 c3_state.tables).map Table.seats_left = some 7 ∧
    get_idempotency_key c3_args.idemKey c3_state.ledger = none ∧
    (reserve c3_args bkOk c3_state).1 = .badRequest ∧
    (reserve c3_args bkOk c3_state).1 ≠ .insufficient := by
  decide

/-- C4 counterexample: a booking for login alice succeeds; a second
booking for ALICE with a fresh key also succeeds when the
duplicate-check reservation enumeration errors (check_login_id_exists
returns False on failure), so the two calls can both succeed. -/
theorem c4_duplicate_succeeds_when_enumeration_fails :
    (reserve ⟨1, .rInt 1, "Alice", "alice", "kA"⟩ bkOk init_tables).1 = .created 0 ∧
    c4_state1.reservations.map Reservation.login_id = ["alice"] ∧
    (reserve c4_args2 c4_flagsListErr c4_state1).1 = .created 1 := by
  decide

/-- C8 counterexample: a book request whose seats_to_take is a value
int() raises on is not rejected: app.py coerces it to 1, the booking
proceeds through every store access and succeeds, and table 1 loses a
seat. -/
theorem c8_malformed_seats_not_rejected :
    (reserve c8_args bkOk init_tables).1 = .created 0 ∧
    (reserve c8_args bkOk init_tables).2.2 ≠ [] ∧
    (lookupTable 1 (reserve c8_args bkOk init_tables).2.1.tables).map
      Table.seats_left = some 9 := by
  decide

/-- C2 (amended): if a book call with key K succeeds and its
idempotency-ledger write succeeded, then any later book call with the
same key K and a valid seat count, after any sequence of further
operations, returns the same reservation id with a 200 replay
response, leaves the state exactly unchanged and performs no store
access beyond the ledger read. -/
theorem c2_idempotent_replay (a1 a2 : BookArgs) (fl1 fl2 : BookFlags)
    (s s1 : SysState) (rid : Nat) (tr : List Event) (ops : List Op)
    (hidem : fl1.idemOk = true)
    (h : reserve a1 fl1 s = (.created rid, s1, tr))
    (hkey : a2.idemKey = a1.idemKey)
    (hseats : 1 ≤ coerceSeats a2.seatsRaw ∧ coerceSeats a2.seatsRaw ≤ MAX_PER_BOOKING) :
    reserve a2 fl2 (runOps s1 ops) = (.replayed rid, runOps s1 ops, [.ledgerRead]) := by
  obtain ⟨hrid, -, -, -, -, t, -, -, hs1⟩ :=
    reserve_created_inv a1 fl1 s rid s1 tr h
  have hl1 : get_idempotency_key a1.idemKey s1.ledger = some rid := by
    rw [hs1, hidem]
    simp [get_idempotency_key, hrid]
  have hl2 : get_idempotency_key a2.idemKey (runOps s1 ops).ledger = some rid := by
    rw [hkey]
    exact ledger_runOps_stable a1.idemKey rid ops s1 hl1
  have hval : ¬(coerceSeats a2.seatsRaw < 1 ∨ MAX_PER_BOOKING < coerceSeats a2.seatsRaw) :=
    not_or.mpr ⟨not_lt.mpr hseats.1, not_lt.mpr hseats.2⟩
  simp only [reserve]
  rw [if_neg hval, hl2]

/-- C9: a successful book of n seats on table T changes the inventory
snapshot it read only at T, where exactly seats_left decreases by n
(id, name and total are carried over unchanged); every other key maps
to the same entry as before. -/
theorem c9_book_frame (a : BookArgs) (fl : BookFlags) (s : SysState)
    (rid : Nat) (s1 : SysState) (tr : List Event)
    (h : reserve a fl s = (.created rid, s1, tr)) :
    (∀ k, k ≠ a.tableId → lookupTable k s1.tables = lookupTable k s.tables) ∧
    lookupTable a.tableId s1.tables =
      (lookupTable a.tableId s.tables).map (fun t =>
        { id := t.id, name := t.name, total := t.total,
          seats_left := t.seats_left - coerceSeats a.seatsRaw }) := by
  obtain ⟨-, -, -, -, -, t, hlook, -, hs1⟩ :=
    reserve_created_inv a fl s rid s1 tr h
  subst hs1
  constructor
  · intro k hk
    exact lookupTable_updateTable_ne k a.tableId _ hk s.tables
  · exact lookupTable_updateTable_self a.tableId _ s.tables

/-- C10: when the reservation enumeration behind the duplicate-login
check errors (it yields the empty list), check_login_id_exists returns
False and a booking whose login duplicates an existing reservation up
to case proceeds and succeeds: the uniqueness check fails open on
storage errors. -/
theorem c10_login_check_fails_open (a : BookArgs) (fl : BookFlags) (s : SysState) (t : Table)
    (r : Reservation)
    (hr : r ∈ s.reservations)
    (hdup : pyLower r.login_id = pyLower (normLogin a.rawLogin))
    (hlist : fl.listOk = false)
    (hseats : 1 ≤ coerceSeats a.seatsRaw ∧ coerceSeats a.seatsRaw ≤ MAX_PER_BOOKING)
    (hkey : get_idempotency_key a.idemKey s.ledger = none)
    (ht : lookupTable a.tableId s.tables = some t)
    (hsl : coerceSeats a.seatsRaw ≤ t.seats_left)
    (hrec : fl.recordOk = true) :
    check_login_id_exists fl.listOk s.reservations (normLogin a.rawLogin) = false ∧
    (reserve a fl s).1 = .created s.nextId := by
  have hcheck : check_login_id_exists fl.listOk s.reservations
      (normLogin a.rawLogin) = false := by
    rw [hlist]
    rfl
  have htab : ¬ s.tables = [] := by
    intro he
    rw [he] at ht
    exact Option.noConfusion ht
  have hval : ¬(coerceSeats a.seatsRaw < 1 ∨ MAX_PER_BOOKING < coerceSeats a.seatsRaw) :=
    not_or.mpr ⟨not_lt.mpr hseats.1, not_lt.mpr hseats.2⟩
  refine ⟨hcheck, ?_⟩
  simp only [reserve]
  rw [if_neg hval, hkey]
  rw [hcheck]
  simp only [Bool.false_eq_true, if_false, if_neg htab]
  rw [ht]
  have hnlt : ¬ t.seats_left < coerceSeats a.seatsRaw := not_lt.mpr hsl
  simp only [hnlt, hrec, if_true, if_false]

theorem check_login_false_of_nodup (listOk : Bool) (recs : List Reservation)
    (login : String)
    (hnodup : ∀ r ∈ recs, ¬ pyLower r.login_id = pyLower login) :
    check_login_id_exists listOk recs login = false := by
  cases hfl : listOk
  · rfl
  · unfold check_login_id_exists get_all_reservations
    simp only [if_true]
    rw [List.any_eq_false]
    intro r hr
    simp only [decide_eq_true_eq]
    exact hnodup r hr

/-- C3 (amended): a book request with a seat count inside the
validated range 1..MAX_PER_BOOKING, a fresh idempotency key, a
non-duplicate login and an existing table with fewer seats left than
requested fails with insufficient (InsufficientSeats, 409) and returns
the state exactly unchanged, having performed only reads. -/
theorem c3_insufficient_seats_no_mutation (a : BookArgs) (fl : BookFlags) (s : SysState) (t : Table)
    (hseats : 1 ≤ coerceSeats a.seatsRaw ∧ coerceSeats a.seatsRaw ≤ MAX_PER_BOOKING)
    (hkey : get_idempotency_key a.idemKey s.ledger = none)
    (hnodup : ∀ r ∈ s.reservations, ¬ pyLower r.login_id = pyLower (normLogin a.rawLogin))
    (ht : lookupTable a.tableId s.tables = some t)
    (hlt : t.seats_left < coerceSeats a.seatsRaw) :
    reserve a fl s = (.insufficient, s, [.ledgerRead, .listRead, .tablesRead]) := by
  have hcheck := check_login_false_of_nodup fl.listOk s.reservations (normLogin a.rawLogin) hnodup
  have htab : ¬ s.tables = [] := by
    intro he
    rw [he] at ht
    exact Option.noConfusion ht
  have hval : ¬(coerceSeats a.seatsRaw < 1 ∨ MAX_PER_BOOKING < coerceSeats a.seatsRaw) :=
    not_or.mpr ⟨not_lt.mpr hseats.1, not_lt.mpr hseats.2⟩
  simp only [reserve]
  rw [if_neg hval, hkey, hcheck]
  simp only [Bool.false_eq_true, if_false, if_neg htab]
  rw [ht]
  simp only [hlt, if_true]

/-- C4 (amended): if a book call succeeds and, after any sequence of
further operations, its reservation still exists in the current state,
then a later book call whose normalised login equals the first up to
ASCII case, with a fresh idempotency key, a valid seat count and a
successful duplicate-check enumeration, fails with duplicateLogin and
leaves the state exactly unchanged. -/
theorem c4_duplicate_login_rejected (a1 a2 : BookArgs) (fl1 fl2 : BookFlags)
    (s s1 : SysState) (rid : Nat) (tr : List Event) (ops : List Op)
    (h : reserve a1 fl1 s = (.created rid, s1, tr))
    (hstill : bookedRecord a1 s ∈ (runOps s1 ops).reservations)
    (hcase : pyLower (normLogin a2.rawLogin) = pyLower (normLogin a1.rawLogin))
    (hlist : fl2.listOk = true)
    (hseats : 1 ≤ coerceSeats a2.seatsRaw ∧ coerceSeats a2.seatsRaw ≤ MAX_PER_BOOKING)
    (hkey : get_idempotency_key a2.idemKey (runOps s1 ops).ledger = none) :
    reserve a2 fl2 (runOps s1 ops) =
      (.duplicateLogin, runOps s1 ops, [.ledgerRead, .listRead]) := by
  have hcheck : check_login_id_exists fl2.listOk (runOps s1 ops).reservations
      (normLogin a2.rawLogin) = true := by
    rw [hlist]
    unfold check_login_id_exists get_all_reservations
    simp only [if_true]
    rw [List.any_eq_true]
    refine ⟨bookedRecord a1 s, hstill, ?_⟩
    simp only [decide_eq_true_eq]
    exact hcase.symm
  have hval : ¬(coerceSeats a2.seatsRaw < 1 ∨ MAX_PER_BOOKING < coerceSeats a2.seatsRaw) :=
    not_or.mpr ⟨not_lt.mpr hseats.1, not_lt.mpr hseats.2⟩
  simp only [reserve]
  rw [if_neg hval, hkey, hcheck]
  simp only [if_true]

theorem findRes_append_fresh (rid : Nat) (l : List Reservation)
    (x : Reservation) (hfresh : ∀ r ∈ l, ¬ r.rid = rid) (hx : x.rid = rid) :
    findRes rid (l ++ [x]) = some x := by
  induction l with
  | nil => simp [findRes, hx]
  | cons r rest ih =>
      have hr : ¬ r.rid = rid := hfresh r (List.mem_cons_self r rest)
      simp only [List.cons_append, findRes, hr, if_false]
      exact ih (fun y hy => hfresh y (List.mem_cons_of_mem r hy))

theorem eraseRes_append_fresh (rid : Nat) (l : List Reservation)
    (x : Reservation) (hfresh : ∀ r ∈ l, ¬ r.rid = rid) (hx : x.rid = rid) :
    eraseRes rid (l ++ [x]) = l := by
  induction l with
  | nil => simp [eraseRes, hx]
  | cons r rest ih =>
      have hr : ¬ r.rid = rid := hfresh r (List.mem_cons_self r rest)
      simp only [List.cons_append, eraseRes, hr, if_false, List.cons.injEq]
      exact ⟨trivial, ih (fun y hy => hfresh y (List.mem_cons_of_mem r hy))⟩

/-- C6: a successful book of n seats followed by a clean successful
cancel of that same reservation (record deletion and seat release both
succeed) restores the seats_left of the booked table to its value
before the booking. -/
theorem c6_book_cancel_roundtrip (a : BookArgs) (fl : BookFlags) (s : SysState)
    (rid : Nat) (s1 : SysState) (tr : List Event) (t : Table)
    (h : reserve a fl s = (.created rid, s1, tr))
    (ht : lookupTable a.tableId s.tables = some t)
    (htot : t.seats_left ≤ t.total)
    (hfresh : ∀ r ∈ s.reservations, r.rid < s.nextId) :
    (cancel rid ⟨true, true⟩ s1).1 = .ok ∧
    (lookupTable a.tableId (cancel rid ⟨true, true⟩ s1).2.tables).map
      Table.seats_left = some t.seats_left := by
  obtain ⟨hrid, -, -, -, -, t2, hlook2, -, hs1⟩ :=
    reserve_created_inv a fl s rid s1 tr h
  rw [ht] at hlook2
  have ht2 : t = t2 := by injection hlook2
  subst ht2
  subst hrid
  have hfr : ∀ r ∈ s.reservations, ¬ r.rid = s.nextId :=
    fun r hr => Nat.ne_of_lt (hfresh r hr)
  have hfind : findRes s.nextId (s.reservations ++ [bookedRecord a s])
      = some (bookedRecord a s) :=
    findRes_append_fresh s.nextId s.reservations (bookedRecord a s) hfr rfl
  have herase : eraseRes s.nextId (s.reservations ++ [bookedRecord a s])
      = s.reservations :=
    eraseRes_append_fresh s.nextId s.reservations (bookedRecord a s) hfr rfl
  have hlookdec : lookupTable a.tableId (updateTable a.tableId
      (fun tb => { tb with seats_left := tb.seats_left - coerceSeats a.seatsRaw })
      s.tables) = some { t with seats_left := t.seats_left - coerceSeats a.seatsRaw } := by
    rw [lookupTable_updateTable_self, ht]
    rfl
  rw [hs1]
  simp only [bookedRecord] at hfind herase
  simp only [cancel, bookedRecord, hfind, herase, release_seats_cas, hlookdec, if_true]
  refine ⟨trivial, ?_⟩
  rw [lookupTable_updateTable_self, lookupTable_updateTable_self, ht]
  show some (min (t.seats_left - coerceSeats a.seatsRaw + coerceSeats a.seatsRaw)
    t.total) = some t.seats_left
  congr 1
  omega

/-- C8 (amended): a book request whose seats_to_take coerces to an
integer outside 1..MAX_PER_BOOKING is rejected as badRequest (400)
with the state exactly unchanged and an empty store-access trace: the
rejection happens before any store read or write. -/
theorem c8_out_of_range_seats_rejected (a : BookArgs) (fl : BookFlags)
    (s : SysState) (n : Int)
    (hn : a.seatsRaw = .rInt n)
    (hout : n < 1 ∨ MAX_PER_BOOKING < n) :
    reserve a fl s = (.badRequest, s, []) := by
  have hval : coerceSeats a.seatsRaw < 1 ∨ MAX_PER_BOOKING < coerceSeats a.seatsRaw := by
    rw [hn]
    exact hout
  simp only [reserve]
  rw [if_pos hval]

/-- Witness for the idempotent-replay theorem at a concrete instance:
booking with key K2 on w0 then replaying after a resync. -/
theorem c2_idempotent_replay_witness :
    reserve w2_a2 bkOk (runOps w2_s1 [Op.opResync]) =
      (.replayed 1, runOps w2_s1 [Op.opResync], [.ledgerRead]) :=
  c2_idempotent_replay w2_a1 w2_a2 bkOk bkOk w0 w2_s1 1 w2_tr [Op.opResync]
    (by decide) (by decide) (by decide) (by decide)

/-- Witness for the InsufficientSeats theorem at a concrete instance:
3 seats requested on table 3 of w0, which has 2 left. -/
theorem c3_insufficient_seats_no_mutation_witness :
    reserve w3_args bkOk w0 =
      (.insufficient, w0, [.ledgerRead, .listRead, .tablesRead]) :=
  c3_insufficient_seats_no_mutation w3_args bkOk w0 ⟨3, "Table 3", 10, 2⟩
    (by decide) (by decide) (by decide) (by decide) (by decide)

/-- Witness for the duplicate-login theorem at a concrete instance:
zed books on w0, an unrelated booking by bea intervenes, then ZED
books with a fresh key and is rejected. -/
theorem c4_duplicate_login_rejected_witness :
    reserve w4_a2 bkOk (runOps w4_s1 w4_ops) =
      (.duplicateLogin, runOps w4_s1 w4_ops, [.ledgerRead, .listRead]) :=
  c4_duplicate_login_rejected w4_a1 w4_a2 bkOk bkOk w0 w4_s1 1 w4_tr w4_ops
    (by decide) (by decide) (by decide) (by decide) (by decide) (by decide)

/-- Witness for the resync-consistency theorem at a concrete instance:
table 2 of w0 after a resync. -/
theorem c5_resync_restores_consistency_witness :
    (⟨2, "Table 2", 10, 7⟩ : Table).seats_left =
      (⟨2, "Table 2", 10, 7⟩ : Table).total -
        sumSeats 2 (admin_resync w0).reservations :=
  c5_resync_restores_consistency w0 2 ⟨2, "Table 2", 10, 7⟩ (by decide)

/-- Witness for the book-cancel round-trip theorem at a concrete
instance: 2 seats booked on table 1 of w0, then cancelled. -/
theorem c6_book_cancel_roundtrip_witness :
    (cancel 1 ⟨true, true⟩ w6_s1).1 = .ok ∧
    (lookupTable 1 (cancel 1 ⟨true, true⟩ w6_s1).2.tables).map
      Table.seats_left = some (10 : Int) :=
  c6_book_cancel_roundtrip w6_a bkOk w0 1 w6_s1 w6_tr ⟨1, "Table 1", 10, 10⟩
    (by decide) (by decide) (by decide) (by decide)

/-- Witness for the out-of-range rejection theorem at a concrete
instance: 9 seats requested on w0. -/
theorem c8_out_of_range_seats_rejected_witness :
    reserve w8_args bkOk w0 = (.badRequest, w0, []) :=
  c8_out_of_range_seats_rejected w8_args bkOk w0 9 (by decide) (by decide)

/-- Witness for the frame theorem at a concrete instance: 1 seat
booked on table 2 of w0; table 1 is untouched and table 2 loses
exactly one seat. -/
theorem c9_book_frame_witness :
    lookupTable 1 w9_s1.tables = lookupTable 1 w0.tables ∧
    lookupTable 2 w9_s1.tables = (lookupTable 2 w0.tables).map (fun t =>
      { id := t.id, name := t.name, total := t.total,
        seats_left := t.seats_left - 1 }) :=
  ⟨(c9_book_frame w9_a bkOk w0 1 w9_s1 w9_tr (by decide)).1 1 (by decide),
   (c9_book_frame w9_a bkOk w0 1 w9_s1 w9_tr (by decide)).2⟩

/-- Witness for the fail-open theorem at a concrete instance: ANN
duplicates the stored login ann, the enumeration errors, and the
booking succeeds. -/
theorem c10_login_check_fails_open_witness :
    check_login_id_exists false w0.reservations (normLogin "ANN") = false ∧
    (reserve w10_a c4_flagsListErr w0).1 = .created 1 :=
  c10_login_check_fails_open w10_a c4_flagsListErr w0 ⟨1, "Table 1", 10, 10⟩
    ⟨0, 2, 3, "Ann", "ann"⟩ (by decide) (by decide) (by decide) (by decide)
    (by decide) (by decide) (by decide) (by decide)
